import Mathlib

/-!
Verification of the room presence and reconnection reconciliation engine of a
real-time room-chat backend.  The development shallowly embeds the JavaScript
sources: `events/roomEvents.js` (join / rejoin / leave socket handlers),
`events/systemEvents.js` (the disconnect grace-timer manager with its
30-minute policy constant), `utils/socketStore.js` (the live connection
registry) and `utils/redisPresence.js` (the durable presence directory).
JavaScript `Map` objects are embedded as association lists with `Map`
semantics; Redis sets are duplicate-free lists; the asynchronous handlers are
embedded as pure state transformers that additionally return the list of
socket emissions they perform, in order.
-/

/-- JS `Map.has`: does the association list contain the key? -/
def jsMapHas (m : List (String × α)) (k : String) : Bool :=
  match m with
  | [] => false
  | p :: t => p.1 == k || jsMapHas t k

/-- JS `Map.get`: the value stored under the key, if any (first binding
wins, as in a JS `Map`, whose keys are unique). -/
def jsMapGet (m : List (String × α)) (k : String) : Option α :=
  match m with
  | [] => none
  | p :: t => if p.1 == k then some p.2 else jsMapGet t k

/-- JS `Map.set`: replace the value in place when the key exists (insertion
order is preserved), append a fresh binding otherwise. -/
def jsMapSet (m : List (String × α)) (k : String) (v : α) : List (String × α) :=
  if jsMapHas m k then m.map (fun p => if p.1 == k then (k, v) else p)
  else m ++ [(k, v)]

/-- JS `Map.delete`: drop every binding of the key. -/
def jsMapDelete (m : List (String × α)) (k : String) : List (String × α) :=
  m.filter (fun p => !(p.1 == k))

/-- Number of bindings of a key in an association list; a JS `Map` keeps this
at most 1 structurally, which the grace-timer invariant proof establishes for
the embedded operations. -/
def keyCount (m : List (String × α)) (u : String) : Nat :=
  (m.filter (fun p => p.1 == u)).length

/-- Redis `SADD` on a plain member list: add the member if absent. -/
def setAdd (l : List String) (x : String) : List String :=
  if l.contains x then l else l ++ [x]

/-- One entry of `disconnectGraceTimers` (events/systemEvents.js line 50):
`{ timer, username, roomId, startedAt }`.  The armed `setTimeout` deadline is
represented by `startedAt` plus the captured `duration`; the timer handle
itself has no other observable content. -/
structure TimerEntry where
  username : String
  roomId : String
  startedAt : Nat
  duration : Nat
deriving DecidableEq, Repr

/-- The mutable server-side state touched by the embedded handlers, for one
client session:
`graceTimers` is the module-level `disconnectGraceTimers` map of
events/systemEvents.js keyed by userId; `store` is the durable Redis
key-value store restricted to set-valued keys (room participant sets);
`presenceStatus` is the per-username presence status written by
`setPresence`; `joinedRooms` is the session's `socket.joinedRooms` first-join
set and `currentRoomId` its `socket.currentRoomId`. -/
structure ServerState where
  graceTimers : List (String × TimerEntry)
  store : List (String × List String)
  presenceStatus : List (String × String)
  joinedRooms : List String
  currentRoomId : Option String
deriving DecidableEq, Repr

/-- utils/redisPresence.js line 5: the unified participants key format. -/
def ROOM_PARTICIPANTS_KEY (roomId : String) : String :=
  "room:" ++ roomId ++ ":participants"

/-- utils/redisPresence.js line 6: the per-room system-message list key. -/
def ROOM_SYSTEM_KEY (roomId : String) : String :=
  "room:system:" ++ roomId

/-- Redis `SADD key member` on the embedded store. -/
def storeSAdd (st : List (String × List String)) (key x : String) :
    List (String × List String) :=
  jsMapSet st key (setAdd ((jsMapGet st key).getD []) x)

/-- Redis `SREM key member` on the embedded store. -/
def storeSRem (st : List (String × List String)) (key x : String) :
    List (String × List String) :=
  jsMapSet st key (((jsMapGet st key).getD []).filter (fun y => !(y == x)))

/-- utils/redisPresence.js `addUserToRoom`: `SADD` the username into the
room's participants set.  The catch branch (store failure, logged and turned
into `false`) lies outside the pure embedding. -/
def addUserToRoom (roomId username : String) (s : ServerState) : ServerState :=
  { s with store := storeSAdd s.store (ROOM_PARTICIPANTS_KEY roomId) username }

/-- utils/redisPresence.js `removeUserFromRoom`: `SREM` the username from the
room's participants set. -/
def removeUserFromRoom (roomId username : String) (s : ServerState) : ServerState :=
  { s with store := storeSRem s.store (ROOM_PARTICIPANTS_KEY roomId) username }

/-- Modelled from the spec: utils/redisUtils.js is absent from src; its
`setPresence(username, status)` records the user's presence status in the
shared store (spec section 6, presence status updates). -/
def setPresence (username status : String) (s : ServerState) : ServerState :=
  { s with presenceStatus := jsMapSet s.presenceStatus username status }

/-- Modelled from the spec: utils/presence.js is absent from src (only its
callers are).  Per the spec the Presence Directory exposes
`removeMember(roomId, username)`; the expiry callback of
events/systemEvents.js invokes it as `removeUserFromRoom(roomId, userId,
username)`, removing the member name from the room's durable set, realised
here by the src `removeUserFromRoom` of utils/redisPresence.js. -/
def presence_removeUserFromRoom (roomId _userId username : String)
    (s : ServerState) : ServerState :=
  removeUserFromRoom roomId username s

/-- events/systemEvents.js line 17: the extended grace period,
30 minutes in milliseconds. -/
def DISCONNECT_GRACE_PERIOD : Nat := 1800000

/-- events/systemEvents.js `addDisconnectGraceTimer(userId, username, roomId,
duration = DISCONNECT_GRACE_PERIOD)`: a no-op (with a log) when a timer for
the user already exists; otherwise arms a timer and records
`{ timer, username, roomId, startedAt: Date.now() }` under the userId.
`now` stands for `Date.now()` at the call. -/
def addDisconnectGraceTimer (userId username roomId : String)
    (duration : Nat) (now : Nat) (s : ServerState) : ServerState :=
  if jsMapHas s.graceTimers userId then s
  else
    { s with graceTimers :=
        jsMapSet s.graceTimers userId ⟨username, roomId, now, duration⟩ }

/-- `addDisconnectGraceTimer` invoked without an explicit duration, as the
disconnect path does: the JS default parameter supplies
`DISCONNECT_GRACE_PERIOD`. -/
def addDisconnectGraceTimerDefault (userId username roomId : String)
    (now : Nat) (s : ServerState) : ServerState :=
  addDisconnectGraceTimer userId username roomId DISCONNECT_GRACE_PERIOD now s

/-- events/systemEvents.js `cancelDisconnectTimer(userId)`: when a timer
entry exists, `clearTimeout` it, delete the entry and return `true`;
otherwise return `false`. -/
def cancelDisconnectTimer (userId : String) (s : ServerState) : Bool × ServerState :=
  match jsMapGet s.graceTimers userId with
  | some _ => (true, { s with graceTimers := jsMapDelete s.graceTimers userId })
  | none => (false, s)

/-- The socket emissions the embedded handlers perform, in order.  Broadcasts
carry the identifying fields of the JS payloads (`room:userEntered` and
`room:userLeft` carry username, userId, a message, userCount and timestamp;
`room:userListUpdate` carries userCount and participants); the derived
count/list/timestamp fields are omitted from the trace. -/
inductive Emit where
  | errorMsg (msg : String)
  | joinError
  | rejoinError
  | joinSuccess (roomId : String)
  | rejoinSuccess (roomId : String)
  | leaveSuccess (roomId : String)
  | entered (roomId username userId : String)
  | left (roomId username userId : String)
  | listUpdate (roomId : String)
deriving DecidableEq, Repr

/-- The `room:userEntered` broadcast, for a given room. -/
def isEnteredFor (roomId : String) : Emit → Bool
  | Emit.entered r _ _ => r == roomId
  | _ => false

/-- Any `room:userEntered` broadcast. -/
def isEntered : Emit → Bool
  | Emit.entered _ _ _ => true
  | _ => false

/-- Any `room:userLeft` broadcast. -/
def isLeft : Emit → Bool
  | Emit.left _ _ _ => true
  | _ => false

/-- Number of "entered" broadcasts to the given room in a trace. -/
def enteredCountFor (tr : List Emit) (roomId : String) : Nat :=
  (tr.filter (isEnteredFor roomId)).length

/-- Number of "entered" broadcasts in a trace. -/
def enteredCount (tr : List Emit) : Nat :=
  (tr.filter isEntered).length

/-- Number of "left" broadcasts in a trace. -/
def leftCount (tr : List Emit) : Nat :=
  (tr.filter isLeft).length

/-- The expiry callback armed by `addDisconnectGraceTimer`
(events/systemEvents.js lines 34-48).  It runs only when the timer was not
cancelled first, i.e. exactly when the entry is still in the map
(cancellation clears the timeout and deletes the entry atomically): it
removes the user from the room's durable membership when a roomId was
captured (`if (roomId)` — JS truthiness), sets the user's presence to
offline, and deletes its own map entry.  It performs no socket emission. -/
def graceTimerExpire (userId : String) (s : ServerState) : ServerState × List Emit :=
  match jsMapGet s.graceTimers userId with
  | none => (s, [])
  | some e =>
    let s1 := if e.roomId == "" then s
              else presence_removeUserFromRoom e.roomId userId e.username s
    let s2 := setPresence e.username "offline" s1
    ({ s2 with graceTimers := jsMapDelete s2.graceTimers userId }, [])

/-- The payload of the `joinRoom` / `rejoinRoom` / `leaveRoom` socket events:
`{ roomId, userId, username, silent = true }`.  A field evaluating falsy in
the JS destructuring is an absent field or the empty string. -/
structure RoomPayload where
  roomId : Option String
  userId : Option String
  username : Option String
  silent : Option Bool
deriving DecidableEq, Repr

/-- JS truthiness of a destructured string field: present and non-empty. -/
def present (o : Option String) : Bool :=
  match o with
  | some v => !(v == "")
  | none => false

/-- The validation failure message of all three room handlers
(events/roomEvents.js lines 29, 100, 155). -/
def reqMsg : String := "roomId, userId, and username are required"

/-- Modelled from the spec: services/roomService.js is absent from src (only
its callers are).  Per the spec, `joinRoom` validates room access (the
external authorization gate, here the `accessOk` argument) and on success
records the username in the durable Presence Directory for the room; on
denial it reports failure and mutates nothing. -/
def roomService_joinRoom (accessOk : Bool) (roomId _userId username : String)
    (s : ServerState) : Bool × ServerState :=
  if accessOk then (true, addUserToRoom roomId username s) else (false, s)

/-- Modelled from the spec: services/roomService.js is absent from src.  Per
its call site's comment ("Remove from Redis") and the spec's Presence
Directory contract, `leaveRoom` removes the username from the room's durable
membership set. -/
def roomService_leaveRoom (roomId _userId username : String)
    (s : ServerState) : ServerState :=
  removeUserFromRoom roomId username s

/-- events/roomEvents.js `joinRoom` handler (lines 24-89): validate the
payload fields (reject with an error emission when one is falsy), record
whether this is the session's first join of the room *before* the access
gate, run the gate, and on success join the socket room, set
`currentRoomId`, add the room to `joinedRooms`, emit `joinRoom:success`,
broadcast `room:userEntered` only on a first join, and emit
`room:userListUpdate`. -/
def joinRoom (accessOk : Bool) (d : RoomPayload) (s : ServerState) :
    ServerState × List Emit :=
  if present d.roomId && present d.userId && present d.username then
    let roomId := d.roomId.getD ""
    let userId := d.userId.getD ""
    let username := d.username.getD ""
    let isFirstJoin := !(s.joinedRooms.contains roomId)
    match roomService_joinRoom accessOk roomId userId username s with
    | (false, s1) => (s1, [Emit.joinError])
    | (true, s1) =>
      let s2 := { s1 with currentRoomId := some roomId,
                          joinedRooms := setAdd s1.joinedRooms roomId }
      (s2, [Emit.joinSuccess roomId]
            ++ (if isFirstJoin then [Emit.entered roomId username userId] else [])
            ++ [Emit.listUpdate roomId])
  else (s, [Emit.errorMsg reqMsg])

/-- events/roomEvents.js `rejoinRoom` handler (lines 95-145): same
validation and access gate as `joinRoom`; on success it rejoins the socket
room and sets `currentRoomId` but does *not* touch `joinedRooms`, emits
`rejoinRoom:success`, broadcasts `room:userEntered` only when the caller
passed `silent: false` (the field defaults to `true`), and emits
`room:userListUpdate`. -/
def rejoinRoom (accessOk : Bool) (d : RoomPayload) (s : ServerState) :
    ServerState × List Emit :=
  if present d.roomId && present d.userId && present d.username then
    let roomId := d.roomId.getD ""
    let userId := d.userId.getD ""
    let username := d.username.getD ""
    let silent := d.silent.getD true
    match roomService_joinRoom accessOk roomId userId username s with
    | (false, s1) => (s1, [Emit.rejoinError])
    | (true, s1) =>
      let s2 := { s1 with currentRoomId := some roomId }
      (s2, [Emit.rejoinSuccess roomId]
            ++ (if silent then [] else [Emit.entered roomId username userId])
            ++ [Emit.listUpdate roomId])
  else (s, [Emit.errorMsg reqMsg])

/-- events/roomEvents.js `leaveRoom` handler (lines 150-198): validate the
payload fields, leave the socket room, remove the user from the durable
membership (`roomService.leaveRoom`), clear the room from the session's
`joinedRooms`, null `currentRoomId`, emit `leaveRoom:success`, broadcast
`room:userLeft`, and emit `room:userListUpdate`.  The handler contains no
operation on `disconnectGraceTimers`. -/
def leaveRoom (d : RoomPayload) (s : ServerState) : ServerState × List Emit :=
  if present d.roomId && present d.userId && present d.username then
    let roomId := d.roomId.getD ""
    let userId := d.userId.getD ""
    let username := d.username.getD ""
    let s1 := roomService_leaveRoom roomId userId username s
    let s2 := { s1 with joinedRooms := s1.joinedRooms.filter (fun r => !(r == roomId)),
                        currentRoomId := none }
    (s2, [Emit.leaveSuccess roomId, Emit.left roomId username userId,
          Emit.listUpdate roomId])
  else (s, [Emit.errorMsg reqMsg])

/-- Modelled from the spec: server.js is absent from src (only the exports it
imports are).  Per the spec and the repo's implementation guides, the
transport-disconnect handler starts the grace period by calling
`addDisconnectGraceTimer` without an explicit duration, so the JS default
`DISCONNECT_GRACE_PERIOD` applies. -/
def handleUnexpectedDisconnect (userId username roomId : String) (now : Nat)
    (s : ServerState) : ServerState :=
  addDisconnectGraceTimerDefault userId username roomId now s

/-- Modelled from the spec: server.js is absent from src.  Per the spec and
the repo's testing guide ("Disconnect grace timer cancelled … -
reconnected"), a transport reconnect matched to a pending grace timer calls
`cancelDisconnectTimer` for the user before any room rejoin is processed. -/
def handleReconnect (userId : String) (s : ServerState) : Bool × ServerState :=
  cancelDisconnectTimer userId s

/-- The protocol's handling of a rejoin after an unexpected disconnect: the
transport reconnect (which cancels the pending grace timer, see
`handleReconnect`) followed by the `rejoinRoom` handler of
events/roomEvents.js. -/
def reconnectAndRejoin (accessOk : Bool) (userId : String) (d : RoomPayload)
    (s : ServerState) : ServerState × List Emit :=
  rejoinRoom accessOk d (handleReconnect userId s).2

/-- The operations that mutate the grace-timer map — its two entry points and
the internal expiry callback (spec section 5: the map is mutated only
through `start`, `cancel` and expiry). -/
inductive TimerOp where
  | start (userId username roomId : String) (now : Nat)
  | cancel (userId : String)
  | expire (userId : String)
deriving DecidableEq, Repr

/-- Apply one grace-timer operation: `start` is the disconnect path
(`addDisconnectGraceTimer` with the default duration), `cancel` is
`cancelDisconnectTimer`, `expire` is the timer's own expiry callback. -/
def applyTimerOp (s : ServerState) : TimerOp → ServerState
  | TimerOp.start userId username roomId now =>
      addDisconnectGraceTimerDefault userId username roomId now s
  | TimerOp.cancel userId => (cancelDisconnectTimer userId s).2
  | TimerOp.expire userId => (graceTimerExpire userId s).1

/-- One socket of the live connection registry: `socket.userId` and
`socket.username` (the latter may be unset, JS-falsy as the empty string). -/
structure RegSocket where
  userId : String
  username : String
deriving DecidableEq, Repr

/-- utils/socketStore.js module state: `isReady` (true once `setIo` ran and
`chatNamespace` is non-null), the adapter's `rooms` map from room key to the
socket ids joined to it, and the namespace's `sockets` map. -/
structure SocketRegistry where
  isReady : Bool
  rooms : List (String × List String)
  sockets : List (String × RegSocket)
deriving DecidableEq, Repr

/-- utils/socketStore.js line 19: the adapter room key. -/
def roomKey (roomId : String) : String := "room:" ++ roomId

/-- utils/socketStore.js `getSocketRoomCount`: `null` when the registry is
not ready, otherwise `rooms.get(roomKey)?.size || 0` — a number, zero
included, never `null`. -/
def getSocketRoomCount (reg : SocketRegistry) (roomId : String) : Option Nat :=
  if reg.isReady then
    some (((jsMapGet reg.rooms (roomKey roomId)).getD []).length)
  else none

/-- utils/socketStore.js `getSocketRoomUsers`: `null` when not ready,
otherwise the sockets of the room that carry a (truthy) username — an
array, possibly empty, never `null`. -/
def getSocketRoomUsers (reg : SocketRegistry) (roomId : String) :
    Option (List RegSocket) :=
  if reg.isReady then
    some ((((jsMapGet reg.rooms (roomKey roomId)).getD []).filterMap
             (fun sid => jsMapGet reg.sockets sid)).filter
           (fun sock => !(sock.username == "")))
  else none

/-- utils/redisPresence.js `getRoomUsers`: the Socket.IO adapter is the
primary source — `null` means not ready and triggers the Redis fallback; an
array (even empty) is authoritative. -/
def getRoomUsers (reg : SocketRegistry) (s : ServerState) (roomId : String) :
    List String :=
  match getSocketRoomUsers reg roomId with
  | some socketUsers => socketUsers.map (fun u => u.username)
  | none => (jsMapGet s.store (ROOM_PARTICIPANTS_KEY roomId)).getD []

/-- utils/redisPresence.js `getRoomUserCount`: the adapter count is
authoritative (even 0); only `null` (not ready) falls back to
`SCARD room:{roomId}:participants` on Redis. -/
def getRoomUserCount (reg : SocketRegistry) (s : ServerState) (roomId : String) :
    Nat :=
  match getSocketRoomCount reg roomId with
  | some n => n
  | none => ((jsMapGet s.store (ROOM_PARTICIPANTS_KEY roomId)).getD []).length

/-- Name resolution for the key-builder identifiers bound at the top level of
utils/redisPresence.js: `ROOM_PARTICIPANTS_KEY` (line 5) and
`ROOM_SYSTEM_KEY` (line 6) are the only ones defined; any other identifier
fails to resolve (a JS ReferenceError when evaluated). -/
def resolveModuleKeyBinding (name : String) : Option (String → String) :=
  if name == "ROOM_PARTICIPANTS_KEY" then some ROOM_PARTICIPANTS_KEY
  else if name == "ROOM_SYSTEM_KEY" then some ROOM_SYSTEM_KEY
  else none

/-- utils/redisPresence.js `clearRoomUsers` (lines 142-151): the body
evaluates `ROOM_USERS_KEY(roomId)`, but `ROOM_USERS_KEY` is defined nowhere
in the module, so the reference throws before the store deletion is issued
and the catch branch returns `false`. -/
def clearRoomUsers (roomId : String) (s : ServerState) : Bool × ServerState :=
  match resolveModuleKeyBinding "ROOM_USERS_KEY" with
  | some keyOf => (true, { s with store := jsMapDelete s.store (keyOf roomId) })
  | none => (false, s)

/-- A server state with no grace timer and empty stores. -/
def emptyServerState : ServerState :=
  { graceTimers := [], store := [], presenceStatus := [],
    joinedRooms := [], currentRoomId := none }

/-- A grace-timer entry for the user "alice" in room "r1", armed at 0 with
the policy duration. -/
def sampleEntry : TimerEntry :=
  { username := "alice", roomId := "r1", startedAt := 0,
    duration := DISCONNECT_GRACE_PERIOD }

/-- A state in which user "u1" ("alice") is a member of room "r1" and has a
pending grace timer. -/
def sampleTimerState : ServerState :=
  { graceTimers := [("u1", sampleEntry)],
    store := [(ROOM_PARTICIPANTS_KEY "r1", ["alice"])],
    presenceStatus := [],
    joinedRooms := ["r1"],
    currentRoomId := some "r1" }

/-- A well-formed leave payload for "alice" in room "r1". -/
def samplePayload : RoomPayload :=
  { roomId := some "r1", userId := some "u1", username := some "alice",
    silent := none }

/-- A sequence of grace-timer operations with repeated starts for the same
user. -/
def sampleOps : List TimerOp :=
  [TimerOp.start "u1" "alice" "r1" 0, TimerOp.start "u1" "alice" "r1" 5,
   TimerOp.cancel "u1", TimerOp.start "u1" "alice" "r1" 9, TimerOp.expire "u1"]

/-- A ready connection registry with one socket in room "r1". -/
def readyRegistry : SocketRegistry :=
  { isReady := true, rooms := [("room:r1", ["s1"])],
    sockets := [("s1", { userId := "u1", username := "alice" })] }

/-- The registry before `setIo` ran: not ready. -/
def notReadyRegistry : SocketRegistry :=
  { isReady := false, rooms := [], sockets := [] }

/-- A payload whose username field is missing. -/
def invalidPayload : RoomPayload :=
  { roomId := some "r1", userId := some "u1", username := none, silent := none }

/-- The expiry callback considered together with the live connection
registry: the body of the armed callback (events/systemEvents.js lines
34-48) contains no operation on the socket registry — the session's registry
bookkeeping is removed by the transport disconnect itself, before the timer
can fire — so the callback returns the registry unchanged alongside its
server-state effects. -/
def graceTimerExpireWithRegistry (userId : String)
    (rs : SocketRegistry × ServerState) :
    (SocketRegistry × ServerState) × List Emit :=
  ((rs.1, (graceTimerExpire userId rs.2).1), (graceTimerExpire userId rs.2).2)

/-! ### Association-list (JS `Map`) lemmas -/

/-- A key the map does not have resolves to nothing. -/
theorem jsMapGet_eq_none_of_has_false (m : List (String × α)) (k : String)
    (h : jsMapHas m k = false) : jsMapGet m k = none := by
  induction m with
  | nil => rfl
  | cons a t ih =>
    simp only [jsMapHas, Bool.or_eq_false_iff] at h
    simp only [jsMapGet, h.1, if_false]
    exact ih h.2

/-- Setting an absent key appends the binding. -/
theorem jsMapSet_of_has_false (m : List (String × α)) (k : String) (v : α)
    (h : jsMapHas m k = false) : jsMapSet m k v = m ++ [(k, v)] := by
  simp [jsMapSet, h]

/-- In-place replacement finds the new value. -/
theorem jsMapGet_replace_self (m : List (String × α)) (k : String) (v : α)
    (h : jsMapHas m k = true) :
    jsMapGet (m.map (fun p => if p.1 == k then (k, v) else p)) k = some v := by
  induction m with
  | nil => simp [jsMapHas] at h
  | cons a t ih =>
    by_cases hak : (a.1 == k) = true
    · simp [jsMapGet, hak]
    · simp only [Bool.not_eq_true] at hak
      simp only [jsMapHas, hak, Bool.false_or] at h
      simp only [List.map_cons, hak, Bool.false_eq_true, if_false, jsMapGet]
      exact ih h

/-- Lookup after appending a binding for an absent key. -/
theorem jsMapGet_append_self (m : List (String × α)) (k : String) (v : α)
    (h : jsMapHas m k = false) : jsMapGet (m ++ [(k, v)]) k = some v := by
  induction m with
  | nil => simp [jsMapGet]
  | cons a t ih =>
    simp only [jsMapHas, Bool.or_eq_false_iff] at h
    simp only [List.cons_append, jsMapGet, h.1, if_false]
    exact ih h.2

/-- `Map.set` stores the value under the key. -/
theorem jsMapGet_set_self (m : List (String × α)) (k : String) (v : α) :
    jsMapGet (jsMapSet m k v) k = some v := by
  by_cases h : jsMapHas m k = true
  · rw [jsMapSet, if_pos h]
    exact jsMapGet_replace_self m k v h
  · have hf : jsMapHas m k = false := by simpa using h
    rw [jsMapSet_of_has_false m k v hf]
    exact jsMapGet_append_self m k v hf

/-- `Map.delete` removes every binding of the key. -/
theorem jsMapHas_delete_self (m : List (String × α)) (k : String) :
    jsMapHas (jsMapDelete m k) k = false := by
  induction m with
  | nil => rfl
  | cons a t ih =>
    by_cases hak : (a.1 == k) = true
    · simpa [jsMapDelete, List.filter_cons, hak] using ih
    · simp only [Bool.not_eq_true] at hak
      simpa [jsMapDelete, jsMapHas, List.filter_cons, hak] using ih

/-- After `Map.delete`, lookup of the key fails. -/
theorem jsMapGet_delete_self (m : List (String × α)) (k : String) :
    jsMapGet (jsMapDelete m k) k = none :=
  jsMapGet_eq_none_of_has_false _ _ (jsMapHas_delete_self m k)

/-- A present key has a value. -/
theorem jsMapGet_isSome_of_has (m : List (String × α)) (k : String)
    (h : jsMapHas m k = true) : ∃ v, jsMapGet m k = some v := by
  induction m with
  | nil => simp [jsMapHas] at h
  | cons a t ih =>
    by_cases hak : (a.1 == k) = true
    · exact ⟨a.2, by simp [jsMapGet, hak]⟩
    · simp only [Bool.not_eq_true] at hak
      simp only [jsMapHas, hak, Bool.false_or] at h
      obtain ⟨v, hv⟩ := ih h
      exact ⟨v, by simp only [jsMapGet, hak, Bool.false_eq_true, if_false]; exact hv⟩

/-- An absent key occurs in no binding. -/
theorem keyCount_eq_zero_of_has_false (m : List (String × α)) (u : String)
    (h : jsMapHas m u = false) : keyCount m u = 0 := by
  induction m with
  | nil => rfl
  | cons a t ih =>
    simp only [jsMapHas, Bool.or_eq_false_iff] at h
    simp only [keyCount, List.filter_cons, h.1]
    exact ih h.2

/-- Appending one binding raises the key's count by at most one. -/
theorem keyCount_append_single (m : List (String × α)) (k u : String) (v : α) :
    keyCount (m ++ [(k, v)]) u = keyCount m u + (if (k == u) = true then 1 else 0) := by
  by_cases hku : (k == u) = true
  · simp [keyCount, List.filter_append, hku]
  · simp only [Bool.not_eq_true] at hku
    simp [keyCount, List.filter_append, hku]

/-- Deleting a key never increases another key's count. -/
theorem keyCount_delete_le (m : List (String × α)) (k u : String) :
    keyCount (jsMapDelete m k) u ≤ keyCount m u := by
  induction m with
  | nil => exact Nat.le_refl 0
  | cons a t ih =>
    by_cases hak : (a.1 == k) = true
    · have : keyCount (jsMapDelete (a :: t) k) u = keyCount (jsMapDelete t k) u := by
        simp [jsMapDelete, List.filter_cons, hak]
      rw [this]
      refine Nat.le_trans ih ?_
      by_cases hau : (a.1 == u) = true
      · simp [keyCount, List.filter_cons, hau]
      · simp only [Bool.not_eq_true] at hau
        simp [keyCount, List.filter_cons, hau]
    · simp only [Bool.not_eq_true] at hak
      by_cases hau : (a.1 == u) = true
      · simpa [jsMapDelete, keyCount, List.filter_cons, hak, hau] using ih
      · simp only [Bool.not_eq_true] at hau
        simpa [jsMapDelete, keyCount, List.filter_cons, hak, hau] using ih

/-- Filtering a member out of a member list removes it. -/
theorem contains_filter_self_false (l : List String) (x : String) :
    (l.filter (fun y => !(y == x))).contains x = false := by
  induction l with
  | nil => rfl
  | cons a t ih =>
    by_cases hax : (a == x) = true
    · simp only [List.filter_cons, hax]
      simp only [Bool.not_true, Bool.false_eq_true, if_false]
      exact ih
    · simp only [Bool.not_eq_true] at hax
      have hxa : (x == a) = false := by
        simp only [beq_eq_false_iff_ne] at hax ⊢
        exact fun hxe => hax hxe.symm
      simp only [List.filter_cons, hax]
      simp only [Bool.not_false, if_true, List.contains_cons, hxa, Bool.false_or]
      exact ih

/-! ### Handler-level lemmas -/

/-- The join handler never touches the grace-timer map. -/
theorem joinRoom_graceTimers (accessOk : Bool) (d : RoomPayload) (s : ServerState) :
    (joinRoom accessOk d s).1.graceTimers = s.graceTimers := by
  by_cases h : (present d.roomId && present d.userId && present d.username) = true
  · cases accessOk
    · simp [joinRoom, h, roomService_joinRoom]
    · simp [joinRoom, h, roomService_joinRoom, addUserToRoom]
  · have hf : (present d.roomId && present d.userId && present d.username) = false := by
      simpa using h
    simp [joinRoom, hf]

/-- The rejoin handler never touches the grace-timer map. -/
theorem rejoinRoom_graceTimers (accessOk : Bool) (d : RoomPayload) (s : ServerState) :
    (rejoinRoom accessOk d s).1.graceTimers = s.graceTimers := by
  by_cases h : (present d.roomId && present d.userId && present d.username) = true
  · cases accessOk
    · simp [rejoinRoom, h, roomService_joinRoom]
    · simp [rejoinRoom, h, roomService_joinRoom, addUserToRoom]
  · have hf : (present d.roomId && present d.userId && present d.username) = false := by
      simpa using h
    simp [rejoinRoom, hf]

/-- The leave handler never touches the grace-timer map. -/
theorem leaveRoom_graceTimers (d : RoomPayload) (s : ServerState) :
    (leaveRoom d s).1.graceTimers = s.graceTimers := by
  by_cases h : (present d.roomId && present d.userId && present d.username) = true
  · simp [leaveRoom, h, roomService_leaveRoom, removeUserFromRoom]
  · have hf : (present d.roomId && present d.userId && present d.username) = false := by
      simpa using h
    simp [leaveRoom, hf]

/-- A rejoin with the default (or explicit) `silent = true` performs no
"entered" broadcast, whatever the validation or gate outcome. -/
theorem rejoinRoom_silent_enteredCount (accessOk : Bool) (d : RoomPayload)
    (s : ServerState) (hs : d.silent.getD true = true) :
    enteredCount (rejoinRoom accessOk d s).2 = 0 := by
  by_cases h : (present d.roomId && present d.userId && present d.username) = true
  · cases accessOk
    · simp [rejoinRoom, h, roomService_joinRoom, enteredCount, isEntered]
    · simp [rejoinRoom, h, roomService_joinRoom, hs, enteredCount, isEntered]
  · have hf : (present d.roomId && present d.userId && present d.username) = false := by
      simpa using h
    simp [rejoinRoom, hf, enteredCount, isEntered]

/-- One grace-timer operation leaves every user with at most one armed
timer, when every user had at most one before. -/
theorem keyCount_applyTimerOp_le_one (s : ServerState) (op : TimerOp)
    (h : ∀ u, keyCount s.graceTimers u ≤ 1) (u : String) :
    keyCount (applyTimerOp s op).graceTimers u ≤ 1 := by
  cases op with
  | start uid n r now =>
    by_cases hhas : jsMapHas s.graceTimers uid = true
    · simpa [applyTimerOp, addDisconnectGraceTimerDefault, addDisconnectGraceTimer,
        hhas] using h u
    · have hf : jsMapHas s.graceTimers uid = false := by simpa using hhas
      have hset := jsMapSet_of_has_false s.graceTimers uid
        (⟨n, r, now, DISCONNECT_GRACE_PERIOD⟩ : TimerEntry)
      simp only [applyTimerOp, addDisconnectGraceTimerDefault, addDisconnectGraceTimer,
        hf, Bool.false_eq_true, if_false, hset hf]
      rw [keyCount_append_single]
      by_cases huk : (uid == u) = true
      · have hueq : uid = u := by simpa using huk
        have h0 : keyCount s.graceTimers u = 0 :=
          keyCount_eq_zero_of_has_false _ _ (hueq ▸ hf)
        simp [h0, huk]
      · have hukf : (uid == u) = false := by simpa using huk
        simpa [hukf] using h u
  | cancel uid =>
    cases hget : jsMapGet s.graceTimers uid with
    | none => simpa [applyTimerOp, cancelDisconnectTimer, hget] using h u
    | some e =>
      simp only [applyTimerOp, cancelDisconnectTimer, hget]
      exact Nat.le_trans (keyCount_delete_le _ _ _) (h u)
  | expire uid =>
    cases hget : jsMapGet s.graceTimers uid with
    | none => simpa [applyTimerOp, graceTimerExpire, hget] using h u
    | some e =>
      by_cases hroom : (e.roomId == "") = true
      · simp only [applyTimerOp, graceTimerExpire, hget, hroom, if_true, setPresence]
        exact Nat.le_trans (keyCount_delete_le _ _ _) (h u)
      · have hrf : (e.roomId == "") = false := by simpa using hroom
        simp only [applyTimerOp, graceTimerExpire, hget, hrf, Bool.false_eq_true,
          if_false, setPresence, presence_removeUserFromRoom, removeUserFromRoom]
        exact Nat.le_trans (keyCount_delete_le _ _ _) (h u)

/-- Folding grace-timer operations preserves the at-most-one-timer bound. -/
theorem foldl_keyCount_le_one (ops : List TimerOp) :
    ∀ (s : ServerState), (∀ u, keyCount s.graceTimers u ≤ 1) →
      ∀ u, keyCount ((ops.foldl applyTimerOp s).graceTimers) u ≤ 1 := by
  induction ops with
  | nil => exact fun s h u => h u
  | cons op rest ih =>
    intro s h u
    rw [List.foldl_cons]
    exact ih (applyTimerOp s op) (fun u2 => keyCount_applyTimerOp_le_one s op h u2) u

/-! ### Claim theorems -/

/-- Claim C1, counterexample: in a state where user "u1" has a pending grace
timer, an explicit, fully-identified leave broadcasts exactly one "left"
notification, yet the grace-timer entry for "u1" is still present
afterwards — the leave handler cancels no timer, refuting the claim that
after the leave no grace-timer entry for the userId remains. -/
theorem leaveRoom_misses_grace_timer_cancel_cex :
    leftCount (leaveRoom samplePayload sampleTimerState).2 = 1
    ∧ jsMapHas (leaveRoom samplePayload sampleTimerState).1.graceTimers "u1" = true := by
  constructor
  · rfl
  · rfl

/-- Claim C1, amended: for every explicit leave request with roomId, userId
and username present, the handler broadcasts exactly one "left" notification
to the room, and it leaves the grace-timer map exactly as it was — it does
not cancel a pending Grace Timer (no code in the leave path touches
`disconnectGraceTimers`). -/
theorem leaveRoom_left_once_timers_untouched
    (roomId userId username : String) (s : ServerState)
    (hr : roomId ≠ "") (hu : userId ≠ "") (hn : username ≠ "") :
    leftCount (leaveRoom ⟨some roomId, some userId, some username, none⟩ s).2 = 1
    ∧ (leaveRoom ⟨some roomId, some userId, some username, none⟩ s).1.graceTimers
        = s.graceTimers := by
  have hpr : (roomId == "") = false := beq_eq_false_iff_ne.mpr hr
  have hpu : (userId == "") = false := beq_eq_false_iff_ne.mpr hu
  have hpn : (username == "") = false := beq_eq_false_iff_ne.mpr hn
  constructor
  · simp [leaveRoom, present, hpr, hpu, hpn, leftCount, isLeft]
  · exact leaveRoom_graceTimers _ _

/-- Claim C1, witness: the amended statement at a concrete input. -/
theorem leaveRoom_left_once_timers_untouched_witness :
    leftCount (leaveRoom ⟨some "r1", some "u1", some "alice", none⟩ sampleTimerState).2 = 1
    ∧ (leaveRoom ⟨some "r1", some "u1", some "alice", none⟩ sampleTimerState).1.graceTimers
        = sampleTimerState.graceTimers :=
  leaveRoom_left_once_timers_untouched "r1" "u1" "alice" sampleTimerState
    (by decide) (by decide) (by decide)

/-- Claim C2: starting from an empty timer map, no interleaving of start
(disconnect), cancel (reconnect) and expiry operations ever leaves a user
with two simultaneously armed grace timers: every user's entry count in the
map stays at most one. -/
theorem graceTimer_at_most_one_per_user (ops : List TimerOp) (s : ServerState)
    (h : s.graceTimers = []) (u : String) :
    keyCount ((ops.foldl applyTimerOp s).graceTimers) u ≤ 1 :=
  foldl_keyCount_le_one ops s
    (fun u2 => by rw [h]; exact Nat.zero_le 1) u

/-- Claim C2, witness: a concrete interleaving with repeated starts for the
same user. -/
theorem graceTimer_at_most_one_per_user_witness :
    keyCount ((sampleOps.foldl applyTimerOp emptyServerState).graceTimers) "u1" ≤ 1 :=
  graceTimer_at_most_one_per_user sampleOps emptyServerState rfl "u1"

/-- Claim C3: a session's first join of room X (the room is not in its
first-join set) with a passing access gate broadcasts exactly one "entered"
notification for X, and a rejoin of an already-joined room with the default
`silent = true` broadcasts zero "entered" notifications. -/
theorem first_join_entered_once_rejoin_silent :
    (∀ (roomId userId username : String) (s : ServerState),
      roomId ≠ "" → userId ≠ "" → username ≠ "" →
      s.joinedRooms.contains roomId = false →
      enteredCountFor
        (joinRoom true ⟨some roomId, some userId, some username, none⟩ s).2 roomId = 1)
    ∧ (∀ (accessOk : Bool) (roomId userId username : String)
        (silentOpt : Option Bool) (s : ServerState),
      roomId ≠ "" → userId ≠ "" → username ≠ "" →
      silentOpt.getD true = true →
      s.joinedRooms.contains roomId = true →
      enteredCountFor
        (rejoinRoom accessOk ⟨some roomId, some userId, some username, silentOpt⟩ s).2
        roomId = 0) := by
  constructor
  · intro roomId userId username s hr hu hn hfirst
    have hpr : (roomId == "") = false := beq_eq_false_iff_ne.mpr hr
    have hpu : (userId == "") = false := beq_eq_false_iff_ne.mpr hu
    have hpn : (username == "") = false := beq_eq_false_iff_ne.mpr hn
    have hmem : roomId ∉ s.joinedRooms := by simpa using hfirst
    simp [joinRoom, present, hpr, hpu, hpn, roomService_joinRoom, hfirst, hmem,
      enteredCountFor, isEnteredFor]
  · intro accessOk roomId userId username silentOpt s hr hu hn hsil hjoined
    have hpr : (roomId == "") = false := beq_eq_false_iff_ne.mpr hr
    have hpu : (userId == "") = false := beq_eq_false_iff_ne.mpr hu
    have hpn : (username == "") = false := beq_eq_false_iff_ne.mpr hn
    cases accessOk
    · simp [rejoinRoom, present, hpr, hpu, hpn, roomService_joinRoom,
        enteredCountFor, isEnteredFor]
    · simp [rejoinRoom, present, hpr, hpu, hpn, roomService_joinRoom, hsil,
        enteredCountFor, isEnteredFor]

/-- Claim C3, witness: both parts at concrete inputs. -/
theorem first_join_entered_once_rejoin_silent_witness :
    enteredCountFor
      (joinRoom true ⟨some "r1", some "u1", some "alice", none⟩ emptyServerState).2
      "r1" = 1
    ∧ enteredCountFor
        (rejoinRoom true ⟨some "r1", some "u1", some "alice", none⟩ sampleTimerState).2
        "r1" = 0 :=
  ⟨first_join_entered_once_rejoin_silent.1 "r1" "u1" "alice" emptyServerState
      (by decide) (by decide) (by decide) (by decide),
   first_join_entered_once_rejoin_silent.2 true "r1" "u1" "alice" none sampleTimerState
      (by decide) (by decide) (by decide) (by decide) (by decide)⟩

/-- The server-state effects of the expiry callback: when a user's grace
timer expires without having been cancelled (its entry is still in the map),
the callback removes the user's name from the room's durable participants
set, deletes its own timer entry, records the user as offline, and
broadcasts neither a "left" nor an "entered" notification. -/
theorem graceTimerExpire_effects (userId : String) (s : ServerState)
    (e : TimerEntry)
    (hget : jsMapGet s.graceTimers userId = some e) (hroom : e.roomId ≠ "") :
    ((jsMapGet (graceTimerExpire userId s).1.store
        (ROOM_PARTICIPANTS_KEY e.roomId)).getD []).contains e.username = false
    ∧ jsMapGet (graceTimerExpire userId s).1.graceTimers userId = none
    ∧ jsMapGet (graceTimerExpire userId s).1.presenceStatus e.username = some "offline"
    ∧ leftCount (graceTimerExpire userId s).2 = 0
    ∧ enteredCount (graceTimerExpire userId s).2 = 0 := by
  have hrb : (e.roomId == "") = false := beq_eq_false_iff_ne.mpr hroom
  refine ⟨?_, ?_, ?_, ?_, ?_⟩ <;>
    simp only [graceTimerExpire, hget, hrb, Bool.false_eq_true, if_false,
      presence_removeUserFromRoom, removeUserFromRoom, setPresence, storeSRem]
  · rw [jsMapGet_set_self]
    simp only [Option.getD_some]
    exact contains_filter_self_false _ _
  · exact jsMapGet_delete_self _ _
  · exact jsMapGet_set_self _ _ _
  · rfl
  · rfl

/-- Claim C4, counterexample: an uncancelled expiry for "u1" runs to
completion (the timer entry is gone afterwards), yet the connection
registry's bookkeeping is returned exactly unchanged — the socket entry
"s1" and its room membership are still registered — refuting the claim's
conjunct that the expiry removes the Connection Registry bookkeeping. -/
theorem grace_expiry_keeps_registry_bookkeeping_cex :
    jsMapGet (graceTimerExpireWithRegistry "u1"
        (readyRegistry, sampleTimerState)).1.2.graceTimers "u1" = none
    ∧ (graceTimerExpireWithRegistry "u1"
        (readyRegistry, sampleTimerState)).1.1 = readyRegistry
    ∧ jsMapHas (graceTimerExpireWithRegistry "u1"
        (readyRegistry, sampleTimerState)).1.1.sockets "s1" = true
    ∧ ((jsMapGet (graceTimerExpireWithRegistry "u1"
        (readyRegistry, sampleTimerState)).1.1.rooms
          (roomKey "r1")).getD []).contains "s1" = true := by
  refine ⟨?_, rfl, ?_, ?_⟩
  · rfl
  · rfl
  · rfl

/-- Claim C4 (amended): when a user's grace timer expires without having
been cancelled, the expiry removes the user from the room's durable
participants set (Presence Directory, so the (user, room) state is
NOT_IN_ROOM), deletes its own timer entry, records the user as offline, and
broadcasts neither a "left" nor an "entered" notification — but it performs
no Connection Registry operation: the registry is returned unchanged, its
bookkeeping for the session having been removed by the transport disconnect
itself, not by the expiry. -/
theorem grace_expiry_silent_removal
    (userId : String) (reg : SocketRegistry) (s : ServerState) (e : TimerEntry)
    (hget : jsMapGet s.graceTimers userId = some e) (hroom : e.roomId ≠ "") :
    (graceTimerExpireWithRegistry userId (reg, s)).1.1 = reg
    ∧ ((jsMapGet (graceTimerExpireWithRegistry userId (reg, s)).1.2.store
        (ROOM_PARTICIPANTS_KEY e.roomId)).getD []).contains e.username = false
    ∧ jsMapGet (graceTimerExpireWithRegistry userId (reg, s)).1.2.graceTimers
        userId = none
    ∧ jsMapGet (graceTimerExpireWithRegistry userId (reg, s)).1.2.presenceStatus
        e.username = some "offline"
    ∧ leftCount (graceTimerExpireWithRegistry userId (reg, s)).2 = 0
    ∧ enteredCount (graceTimerExpireWithRegistry userId (reg, s)).2 = 0 := by
  obtain ⟨h1, h2, h3, h4, h5⟩ := graceTimerExpire_effects userId s e hget hroom
  exact ⟨rfl, h1, h2, h3, h4, h5⟩

/-- Claim C4, witness: expiry of the pending timer of `sampleTimerState`
alongside the ready registry. -/
theorem grace_expiry_silent_removal_witness :
    (graceTimerExpireWithRegistry "u1" (readyRegistry, sampleTimerState)).1.1
      = readyRegistry
    ∧ ((jsMapGet (graceTimerExpireWithRegistry "u1"
          (readyRegistry, sampleTimerState)).1.2.store
        (ROOM_PARTICIPANTS_KEY sampleEntry.roomId)).getD []).contains
      sampleEntry.username = false
    ∧ jsMapGet (graceTimerExpireWithRegistry "u1"
          (readyRegistry, sampleTimerState)).1.2.graceTimers "u1" = none
    ∧ jsMapGet (graceTimerExpireWithRegistry "u1"
          (readyRegistry, sampleTimerState)).1.2.presenceStatus
        sampleEntry.username = some "offline"
    ∧ leftCount (graceTimerExpireWithRegistry "u1"
          (readyRegistry, sampleTimerState)).2 = 0
    ∧ enteredCount (graceTimerExpireWithRegistry "u1"
          (readyRegistry, sampleTimerState)).2 = 0 :=
  grace_expiry_silent_removal "u1" readyRegistry sampleTimerState sampleEntry
    rfl (by decide)

/-- Claim C5: for a user holding an active grace timer, the transport
reconnect cancels the timer (returning `true`, with no entry left), and the
full reconnect-then-rejoin flow leaves no timer entry for the userId and
broadcasts zero "entered" notifications when the caller does not request a
non-silent rejoin. -/
theorem reconnect_cancels_timer_rejoin_silent
    (accessOk : Bool) (userId : String) (d : RoomPayload) (s : ServerState)
    (ht : jsMapHas s.graceTimers userId = true)
    (hs : d.silent.getD true = true) :
    (handleReconnect userId s).1 = true
    ∧ jsMapHas (handleReconnect userId s).2.graceTimers userId = false
    ∧ jsMapHas (reconnectAndRejoin accessOk userId d s).1.graceTimers userId = false
    ∧ enteredCount (reconnectAndRejoin accessOk userId d s).2 = 0 := by
  obtain ⟨e, he⟩ := jsMapGet_isSome_of_has s.graceTimers userId ht
  refine ⟨?_, ?_, ?_, ?_⟩
  · simp [handleReconnect, cancelDisconnectTimer, he]
  · simp only [handleReconnect, cancelDisconnectTimer, he]
    exact jsMapHas_delete_self _ _
  · rw [reconnectAndRejoin, rejoinRoom_graceTimers]
    simp only [handleReconnect, cancelDisconnectTimer, he]
    exact jsMapHas_delete_self _ _
  · exact rejoinRoom_silent_enteredCount accessOk d _ hs

/-- Claim C5, witness: the reconnect-and-rejoin flow for the pending timer
of `sampleTimerState`. -/
theorem reconnect_cancels_timer_rejoin_silent_witness :
    (handleReconnect "u1" sampleTimerState).1 = true
    ∧ jsMapHas (handleReconnect "u1" sampleTimerState).2.graceTimers "u1" = false
    ∧ jsMapHas (reconnectAndRejoin true "u1" samplePayload sampleTimerState).1.graceTimers
        "u1" = false
    ∧ enteredCount (reconnectAndRejoin true "u1" samplePayload sampleTimerState).2 = 0 :=
  reconnect_cancels_timer_rejoin_silent true "u1" samplePayload sampleTimerState
    (by decide) (by decide)

/-- Claim C6: the grace duration is the fixed policy constant 1,800,000 ms;
a grace timer armed by the unexpected-disconnect path (which passes no
explicit duration) is recorded with `startedAt = now` and duration
1,800,000, so it fires 1,800,000 ms after it is started; and no
client-supplied room-event payload can change any timer — the three
payload-driven handlers leave the grace-timer map untouched. -/
theorem grace_duration_fixed_policy :
    DISCONNECT_GRACE_PERIOD = 1800000
    ∧ (∀ (userId username roomId : String) (now : Nat) (s : ServerState),
        jsMapHas s.graceTimers userId = false →
        jsMapGet (handleUnexpectedDisconnect userId username roomId now s).graceTimers
          userId = some ⟨username, roomId, now, 1800000⟩)
    ∧ (∀ (accessOk : Bool) (d : RoomPayload) (s : ServerState),
        (joinRoom accessOk d s).1.graceTimers = s.graceTimers
        ∧ (rejoinRoom accessOk d s).1.graceTimers = s.graceTimers
        ∧ (leaveRoom d s).1.graceTimers = s.graceTimers) := by
  refine ⟨rfl, ?_, ?_⟩
  · intro userId username roomId now s hf
    simp only [handleUnexpectedDisconnect, addDisconnectGraceTimerDefault,
      addDisconnectGraceTimer, hf, Bool.false_eq_true, if_false]
    exact jsMapGet_set_self _ _ _
  · intro accessOk d s
    exact ⟨joinRoom_graceTimers accessOk d s, rejoinRoom_graceTimers accessOk d s,
      leaveRoom_graceTimers d s⟩

/-- Claim C6, witness: a timer armed at instant 5 carries duration
1,800,000, and a concrete leave leaves the timer map untouched. -/
theorem grace_duration_fixed_policy_witness :
    jsMapGet (handleUnexpectedDisconnect "u1" "alice" "r1" 5 emptyServerState).graceTimers
      "u1" = some ⟨"alice", "r1", 5, 1800000⟩
    ∧ (leaveRoom samplePayload sampleTimerState).1.graceTimers
        = sampleTimerState.graceTimers :=
  ⟨grace_duration_fixed_policy.2.1 "u1" "alice" "r1" 5 emptyServerState (by decide),
   (grace_duration_fixed_policy.2.2 true samplePayload sampleTimerState).2.2⟩

/-- Claim C7: starting a grace timer for a user who already has one is a
strict no-op — the state (hence the existing entry, its start instant and
its armed expiry) is unchanged, whatever duration the call requests. -/
theorem grace_timer_start_idempotent
    (userId username roomId : String) (duration now : Nat) (s : ServerState)
    (h : jsMapHas s.graceTimers userId = true) :
    addDisconnectGraceTimer userId username roomId duration now s = s
    ∧ jsMapGet (addDisconnectGraceTimer userId username roomId duration now s).graceTimers
        userId = jsMapGet s.graceTimers userId := by
  constructor
  · simp [addDisconnectGraceTimer, h]
  · simp [addDisconnectGraceTimer, h]

/-- Claim C7, witness: a second disconnect for "u1" leaves
`sampleTimerState` unchanged. -/
theorem grace_timer_start_idempotent_witness :
    addDisconnectGraceTimer "u1" "bob" "r2" 30000 999 sampleTimerState = sampleTimerState
    ∧ jsMapGet (addDisconnectGraceTimer "u1" "bob" "r2" 30000 999
        sampleTimerState).graceTimers "u1"
      = jsMapGet sampleTimerState.graceTimers "u1" :=
  grace_timer_start_idempotent "u1" "bob" "r2" 30000 999 sampleTimerState (by decide)

/-- Claim C8: the connection registry's room count is `none` (unknown)
exactly when the registry is not ready, and otherwise a number — zero
included; the presence-directory fallback of `getRoomUserCount` and
`getRoomUsers` is taken exactly on the unknown result: when the registry is
ready the results do not depend on the durable store at all, and when it is
not ready they are exactly the durable store's set and its cardinality. -/
theorem registry_unknown_not_zero_fallback :
    (∀ (reg : SocketRegistry) (roomId : String),
        getSocketRoomCount reg roomId = none ↔ reg.isReady = false)
    ∧ (∀ (reg : SocketRegistry) (roomId : String), reg.isReady = true →
        getSocketRoomCount reg roomId
          = some (((jsMapGet reg.rooms (roomKey roomId)).getD []).length))
    ∧ (∀ (reg : SocketRegistry) (s1 s2 : ServerState) (roomId : String),
        reg.isReady = true →
        getRoomUserCount reg s1 roomId = getRoomUserCount reg s2 roomId
        ∧ getRoomUsers reg s1 roomId = getRoomUsers reg s2 roomId)
    ∧ (∀ (reg : SocketRegistry) (s1 : ServerState) (roomId : String),
        reg.isReady = false →
        getRoomUserCount reg s1 roomId
          = ((jsMapGet s1.store (ROOM_PARTICIPANTS_KEY roomId)).getD []).length
        ∧ getRoomUsers reg s1 roomId
          = (jsMapGet s1.store (ROOM_PARTICIPANTS_KEY roomId)).getD []) := by
  refine ⟨?_, ?_, ?_, ?_⟩
  · intro reg roomId
    by_cases hr : reg.isReady = true
    · simp [getSocketRoomCount, hr]
    · have hf : reg.isReady = false := by simpa using hr
      simp [getSocketRoomCount, hf]
  · intro reg roomId hr
    simp [getSocketRoomCount, hr]
  · intro reg s1 s2 roomId hr
    constructor
    · simp [getRoomUserCount, getSocketRoomCount, hr]
    · simp [getRoomUsers, getSocketRoomUsers, hr]
  · intro reg s1 roomId hf
    constructor
    · simp [getRoomUserCount, getSocketRoomCount, hf]
    · simp [getRoomUsers, getSocketRoomUsers, hf]

/-- Claim C8, witness: the not-ready registry reports unknown, and with a
ready registry the user count ignores the durable store. -/
theorem registry_unknown_not_zero_fallback_witness :
    (getSocketRoomCount notReadyRegistry "r1" = none
      ↔ notReadyRegistry.isReady = false)
    ∧ getRoomUserCount readyRegistry emptyServerState "r1"
        = getRoomUserCount readyRegistry sampleTimerState "r1" :=
  ⟨registry_unknown_not_zero_fallback.1 notReadyRegistry "r1",
   (registry_unknown_not_zero_fallback.2.2.1 readyRegistry emptyServerState
      sampleTimerState "r1" (by decide)).1⟩

/-- Claim C9: when any of roomId, userId or username is missing (or empty,
JS-falsy), each of the three room handlers emits only the validation error
to the requester and performs no state change at all — the returned state is
the input state and the trace holds no broadcast. -/
theorem handlers_reject_missing_fields
    (accessOk : Bool) (d : RoomPayload) (s : ServerState)
    (h : (present d.roomId && present d.userId && present d.username) = false) :
    joinRoom accessOk d s = (s, [Emit.errorMsg reqMsg])
    ∧ rejoinRoom accessOk d s = (s, [Emit.errorMsg reqMsg])
    ∧ leaveRoom d s = (s, [Emit.errorMsg reqMsg]) := by
  refine ⟨?_, ?_, ?_⟩ <;> simp [joinRoom, rejoinRoom, leaveRoom, h]

/-- Claim C9, witness: a payload missing the username is rejected with no
state change by all three handlers. -/
theorem handlers_reject_missing_fields_witness :
    joinRoom true invalidPayload sampleTimerState
      = (sampleTimerState, [Emit.errorMsg reqMsg])
    ∧ rejoinRoom true invalidPayload sampleTimerState
        = (sampleTimerState, [Emit.errorMsg reqMsg])
    ∧ leaveRoom invalidPayload sampleTimerState
        = (sampleTimerState, [Emit.errorMsg reqMsg]) :=
  handlers_reject_missing_fields true invalidPayload sampleTimerState (by decide)

/-- Claim C10: `clearRoomUsers` always returns `false` and leaves the store
untouched: its body references `ROOM_USERS_KEY`, which resolves to no
binding of the module, so the call throws before any deletion and the catch
branch returns `false`. -/
theorem clearRoomUsers_always_false_no_mutation (roomId : String) (s : ServerState) :
    clearRoomUsers roomId s = (false, s)
    ∧ resolveModuleKeyBinding "ROOM_USERS_KEY" = none := by
  have hnone : resolveModuleKeyBinding "ROOM_USERS_KEY" = none := by
    simp [resolveModuleKeyBinding]
  exact ⟨by simp [clearRoomUsers, hnone], hnone⟩
